import Mathlib

/-!
# Verification of the `definite` finite-state-machine engine

Shallow embedding of `src/definitely/fsm.py` (class `FSM`) together with the
supporting modules `constants.py` and `exceptions.py`.

Modelling conventions:
* Python values that can sit in `default_state` / `_current_state` are the
  inductive `PyVal`: a string, the `constants.UNKNOWN_STATE` sentinel class
  object, the empty dict `{}` (which `from_json` uses as the fallback for a
  missing `default_state` key), or `None`.
* A Python dict with string keys is an association list; `dictGet` models
  `d.get(k, None)`, collapsing "key absent" and "value is None" to `none`
  exactly as the Python default argument does.  (In `is_allowed` the lookup
  key is `current_state()`; a non-string current state is never among the
  string keys, so the model returns the default for it.)
* `getattr(self, name, None)` for hook resolution is a function
  `String → Option Attr`; an `Attr` is either a callable (which may raise,
  modelled by `Except`) or a non-callable attribute.
* Exceptions are the inductive `PyErr`; raising is `Except.error`.
* To state hook-invocation claims the semantics records a trace: each actual
  handler invocation appends a `CallRecord` holding the handler's attribute
  name, the single positional argument the engine passes
  (`_call_handler` invokes `handle_specific(state_name)`), and the value the
  instance's `_current_state` field has at the moment of the call (what
  `current_state()` would return to the hook).
-/

/-- A Python value that can appear as a default/current state. -/
inductive PyVal where
  | str : String → PyVal
  | unknownState : PyVal
  | emptyDict : PyVal
  | pyNone : PyVal
deriving DecidableEq, Repr

/-- The exception taxonomy of `exceptions.py`, plus arbitrary hook-raised
errors (`hookError`), which the engine never catches. -/
inductive PyErr where
  | invalidState : String → PyErr
  | transitionNotAllowed : String → PyErr
  | invalidHandler : String → PyErr
  | noStatesDefined : String → PyErr
  | invalidDefaultState : String → PyErr
  | hookError : String → PyErr
deriving DecidableEq, Repr

/-- An attribute found by `getattr(self, handler_name, None)`: either a
callable taking the one positional argument the engine passes (the target
state name), or a non-callable attribute. -/
inductive Attr where
  | callable : (String → Except PyErr Unit) → Attr
  | notCallable : Attr

/-- One actual handler invocation performed by `FSM._call_handler`. -/
structure CallRecord where
  handlerName : String
  arg : String
  stateAtCall : PyVal
deriving DecidableEq, Repr

/-- Lookup in an association list modelling a Python dict (`d[k]` presence). -/
def dictLookup {α : Type} : List (String × α) → String → Option α
  | [], _ => Option.none
  | (k', v) :: rest, k => if k' = k then Option.some v else dictLookup rest k

/-- `d.get(k, None)` for a dict whose values are themselves
`list-of-states or None`: absent key and `None` value both give `none`. -/
def dictGet (table : List (String × Option (List String))) (k : String) :
    Option (List String) :=
  match dictLookup table k with
  | Option.none => Option.none
  | Option.some v => v

/-- `d.keys()`. -/
def dictKeys {α : Type} (table : List (String × α)) : List String :=
  table.map Prod.fst

/-- The class-level data of an `FSM` (sub)class: the two declared attributes
plus attribute lookup for `handle_*` hooks (`getattr`). -/
structure FSMClass where
  allowed_transitions : List (String × Option (List String))
  default_state : PyVal
  handlers : String → Option Attr

/-- The base `FSM` class: empty table, `UNKNOWN_STATE` default, no hooks. -/
def FSMClass.base : FSMClass :=
  { allowed_transitions := []
    default_state := PyVal.unknownState
    handlers := fun _ => Option.none }

/-- An `FSM` instance: its class, `self.obj`, `self._current_state`, and the
cached `self._state_names`. -/
structure FSMInstance where
  cls : FSMClass
  obj : PyVal
  curState : PyVal
  stateNames : List String

/-- `FSM.setup`: raises `NoStatesDefined` on an empty table, then
`InvalidDefaultState` when `default_state == constants.UNKNOWN_STATE`,
otherwise caches `allowed_transitions.keys()` in `_state_names`. -/
def setup (self : FSMInstance) : Except PyErr FSMInstance :=
  if self.cls.allowed_transitions.length = 0 then
    Except.error (PyErr.noStatesDefined "'allowed_transitions' not defined")
  else if self.cls.default_state = PyVal.unknownState then
    Except.error (PyErr.invalidDefaultState "'default_state' not defined")
  else
    Except.ok { self with stateNames := dictKeys self.cls.allowed_transitions }

/-- `FSM.is_valid`: `state_name in self._state_names`. -/
def is_valid (self : FSMInstance) (state_name : String) : Bool :=
  self.stateNames.contains state_name

/-- `FSM.__init__(obj=None, initial_state=None)`: set fields, run `setup`,
then adopt `initial_state` only when it is valid. -/
def FSMInit (cls : FSMClass) (obj : PyVal) (initial_state : Option String) :
    Except PyErr FSMInstance :=
  let self : FSMInstance :=
    { cls := cls, obj := obj, curState := cls.default_state, stateNames := [] }
  match setup self with
  | Except.error e => Except.error e
  | Except.ok self' =>
    match initial_state with
    | Option.none => Except.ok self'
    | Option.some s =>
      if is_valid self' s then Except.ok { self' with curState := PyVal.str s }
      else Except.ok self'

/-- `FSM.current_state`. -/
def current_state (self : FSMInstance) : PyVal :=
  self.curState

/-- `FSM.all_states`: `sorted(self._state_names)` (lexicographic). -/
def all_states (self : FSMInstance) : List String :=
  List.insertionSort (· ≤ ·) self.stateNames

/-- `FSM.is_allowed`: `self.allowed_transitions.get(current_state, None)`,
treated as `[]` when `None`, then membership of `state_name`. -/
def is_allowed (self : FSMInstance) (state_name : String) : Bool :=
  let available : Option (List String) :=
    match current_state self with
    | PyVal.str c => dictGet self.cls.allowed_transitions c
    | _ => Option.none
  match available with
  | Option.none => List.contains [] state_name
  | Option.some lst => lst.contains state_name

/-- `FSM._call_handler(handler_name, state_name)`: resolve the attribute;
absent means skip (no call), a non-callable attribute raises
`InvalidHandler` (no call), a callable is invoked with the single argument
`state_name`.  Returns the list of performed invocations together with the
outcome. -/
def call_handler (self : FSMInstance) (handler_name state_name : String) :
    List CallRecord × Except PyErr Unit :=
  match self.cls.handlers handler_name with
  | Option.none => ([], Except.ok ())
  | Option.some Attr.notCallable =>
    ([], Except.error (PyErr.invalidHandler
      ("The '" ++ handler_name ++ "' attribute is not callable")))
  | Option.some (Attr.callable f) =>
    ([{ handlerName := handler_name, arg := state_name,
        stateAtCall := self.curState }], f state_name)

/-- `FSM.transition_to(state_name)`: validity check, legality check,
`handle_any` hook, `handle_<state_name>` hook, then the commit
`self._current_state = state_name`.  Returns the (possibly updated)
instance, the trace of handler invocations, and the outcome. -/
def transition_to (self : FSMInstance) (state_name : String) :
    FSMInstance × List CallRecord × Except PyErr Unit :=
  if is_valid self state_name = false then
    (self, [], Except.error (PyErr.invalidState
      ("'" ++ state_name ++ "' is not a recognized state.")))
  else if is_allowed self state_name = false then
    (self, [], Except.error (PyErr.transitionNotAllowed
      ("cannot transition to '" ++ state_name ++ "'")))
  else
    let r1 := call_handler self "handle_any" state_name
    match r1.2 with
    | Except.error e => (self, r1.1, Except.error e)
    | Except.ok _ =>
      let r2 := call_handler self ("handle_" ++ state_name) state_name
      match r2.2 with
      | Except.error e => (self, r1.1 ++ r2.1, Except.error e)
      | Except.ok _ =>
        ({ self with curState := PyVal.str state_name },
         r1.1 ++ r2.1, Except.ok ())

/-- The document handed to `FSM.from_json`: a dict that may carry
`allowed_transitions` and `default_state` keys. -/
structure JsonDoc where
  allowed_transitions : Option (List (String × Option (List String)))
  default_state : Option String

/-- `FSM.from_json(name, json_data)`: builds a subclass of `cls` whose
`allowed_transitions` defaults to `{}` and whose `default_state` defaults to
`{}` (the literal in the source is `json_data.get("default_state", {})`);
everything else (the hooks) is inherited from `cls`. -/
def from_json (cls : FSMClass) (json_data : JsonDoc) : FSMClass :=
  { cls with
    allowed_transitions := json_data.allowed_transitions.getD []
    default_state :=
      match json_data.default_state with
      | Option.some s => PyVal.str s
      | Option.none => PyVal.emptyDict }

/-- Projection: the resulting current state of a `transition_to` call. -/
def transitionState (self : FSMInstance) (s : String) : PyVal :=
  ((transition_to self s).1).curState

/-- Projection: the handler-invocation trace of a `transition_to` call. -/
def transitionCalls (self : FSMInstance) (s : String) : List CallRecord :=
  (transition_to self s).2.1

/-- Projection: the outcome of a `transition_to` call. -/
def transitionResult (self : FSMInstance) (s : String) : Except PyErr Unit :=
  (transition_to self s).2.2

/-! ## Concrete machines (mirroring the repository's test subclasses) -/

/-- A hook body that returns normally. -/
def okHook : String → Except PyErr Unit := fun _ => Except.ok ()

/-- The `BasicFlow` subclass of the test suite: four states, no hooks. -/
def basicCls : FSMClass :=
  { allowed_transitions :=
      [("created", Option.some ["waiting"]),
       ("waiting", Option.some ["in_progress", "done"]),
       ("in_progress", Option.some ["waiting", "done"]),
       ("done", Option.none)]
    default_state := PyVal.str "created"
    handlers := fun _ => Option.none }

/-- The instance `BasicFlow()` after construction. -/
def basicInst : FSMInstance :=
  { cls := basicCls, obj := PyVal.pyNone, curState := PyVal.str "created",
    stateNames := ["created", "waiting", "in_progress", "done"] }

/-- The instance `BasicFlow(initial_state="done")` after construction. -/
def doneInst : FSMInstance :=
  { basicInst with curState := PyVal.str "done" }

/-- The `ComplexFlow` subclass: same table, with `handle_any` and
`handle_in_progress` hook methods defined. -/
def complexCls : FSMClass :=
  { basicCls with handlers := fun n =>
      if n = "handle_any" then Option.some (Attr.callable okHook)
      else if n = "handle_in_progress" then Option.some (Attr.callable okHook)
      else Option.none }

/-- A `ComplexFlow` instance whose associated object is the string `"job"`. -/
def complexInst : FSMInstance :=
  { cls := complexCls, obj := PyVal.str "job", curState := PyVal.str "created",
    stateNames := ["created", "waiting", "in_progress", "done"] }

/-- A `ComplexFlow` instance currently in state `waiting`. -/
def complexWaitingInst : FSMInstance :=
  { complexInst with curState := PyVal.str "waiting" }

/-- The `from_json` document of the C4 scenario: it has an
`allowed_transitions` key but no `default_state` key. -/
def c4Doc : JsonDoc :=
  { allowed_transitions :=
      Option.some [("start", Option.some ["end"]), ("end", Option.none)]
    default_state := Option.none }

/-- The class `FSM.from_json("C4", c4Doc)` builds. -/
def c4Cls : FSMClass :=
  from_json FSMClass.base c4Doc

/-- The instance obtained by constructing `c4Cls()`. -/
def c4Inst : FSMInstance :=
  { cls := c4Cls, obj := PyVal.pyNone, curState := PyVal.emptyDict,
    stateNames := ["start", "end"] }

/-- A subclass like `BasicFlow` whose `default_state` is `"zzz"`, a name that
is not a key of its transition table. -/
def noKeyCls : FSMClass :=
  { basicCls with default_state := PyVal.str "zzz" }

/-- An instance record of `noKeyCls` as it stands right before `setup` runs
(the `_state_names` cache still empty). -/
def rawNoKeyInst : FSMInstance :=
  { cls := noKeyCls, obj := PyVal.pyNone, curState := PyVal.str "zzz",
    stateNames := [] }

/-- A subclass whose table contains a state literally named `any`, reachable
from itself, with a callable `handle_any` hook. -/
def anyCls : FSMClass :=
  { allowed_transitions := [("any", Option.some ["any"])]
    default_state := PyVal.str "any"
    handlers := fun n =>
      if n = "handle_any" then Option.some (Attr.callable okHook)
      else Option.none }

/-- A constructed instance of `anyCls`, currently in state `any`. -/
def anyInst : FSMInstance :=
  { cls := anyCls, obj := PyVal.pyNone, curState := PyVal.str "any",
    stateNames := ["any"] }

/-! ## Invariants established by construction -/

/-- A successfully constructed instance carries its class unchanged and has
`_state_names` equal to the transition table's key list. -/
theorem FSMInit_ok_inv (cls : FSMClass) (obj : PyVal) (is0 : Option String)
    (self : FSMInstance) (h : FSMInit cls obj is0 = Except.ok self) :
    self.cls = cls ∧ self.stateNames = dictKeys cls.allowed_transitions := by
  unfold FSMInit setup at h
  by_cases h1 : cls.allowed_transitions.length = 0
  · simp [h1] at h
  · by_cases h2 : cls.default_state = PyVal.unknownState
    · simp [h1, h2] at h
    · simp only [h1, h2, if_false, if_neg] at h
      cases is0 with
      | none =>
        simp at h
        subst h
        exact ⟨rfl, rfl⟩
      | some s =>
        simp at h
        by_cases h3 : is_valid
            { cls := cls, obj := obj, curState := cls.default_state,
              stateNames := dictKeys cls.allowed_transitions } s = true
        · simp [h3] at h
          subst h
          exact ⟨rfl, rfl⟩
        · simp [h3] at h
          subst h
          exact ⟨rfl, rfl⟩

/-! ## Claims -/

/-- C1: for every instance and target name, `transition_to` commits the new
state exactly when the validity check, the legality check and both hook
invocations succeed; on any failure (validation error, `InvalidHandler`, or
an error raised by a hook) the error propagates and the instance — in
particular its current state — is left exactly as it was. -/
theorem fsm_C1 (self : FSMInstance) (s : String) :
    (transitionResult self s = Except.ok () ↔
      (is_valid self s = true ∧ is_allowed self s = true ∧
        (call_handler self "handle_any" s).2 = Except.ok () ∧
        (call_handler self ("handle_" ++ s) s).2 = Except.ok ())) ∧
    (transitionResult self s = Except.ok () →
      transitionState self s = PyVal.str s) ∧
    (∀ e, transitionResult self s = Except.error e →
      (transition_to self s).1 = self) ∧
    (∀ e, is_valid self s = true → is_allowed self s = true →
      (call_handler self "handle_any" s).2 = Except.error e →
      transitionResult self s = Except.error e) ∧
    (∀ e, is_valid self s = true → is_allowed self s = true →
      (call_handler self "handle_any" s).2 = Except.ok () →
      (call_handler self ("handle_" ++ s) s).2 = Except.error e →
      transitionResult self s = Except.error e) := by
  unfold transitionResult transitionState transition_to
  cases hv : is_valid self s with
  | false => simp [hv]
  | true =>
    cases ha : is_allowed self s with
    | false => simp [hv, ha]
    | true =>
      simp only [hv, ha]
      cases h1 : (call_handler self "handle_any" s).2 with
      | error e1 => simp [h1]
      | ok u1 =>
        cases h2 : (call_handler self ("handle_" ++ s) s).2 with
        | error e2 => simp [h1, h2]
        | ok u2 => simp [h1, h2]

/-- C1 witness: on `ComplexFlow` from `created`, `transition_to("waiting")`
succeeds and commits the state `waiting`. -/
theorem fsm_C1_witness :
    transitionResult complexInst "waiting" = Except.ok () ∧
    transitionState complexInst "waiting" = PyVal.str "waiting" := by
  have h : transitionResult complexInst "waiting" = Except.ok () := rfl
  exact ⟨h, (fsm_C1 complexInst "waiting").2.1 h⟩

/-- Helper: characterization of the invocation trace and committed state of
a successful `transition_to`. -/
theorem transitionCalls_of_ok (self : FSMInstance) (s : String)
    (h : transitionResult self s = Except.ok ()) :
    transitionCalls self s =
      (match self.cls.handlers "handle_any" with
       | Option.some (Attr.callable _) =>
         [{ handlerName := "handle_any", arg := s,
            stateAtCall := self.curState }]
       | _ => []) ++
      (match self.cls.handlers ("handle_" ++ s) with
       | Option.some (Attr.callable _) =>
         [{ handlerName := "handle_" ++ s, arg := s,
            stateAtCall := self.curState }]
       | _ => []) ∧
    transitionState self s = PyVal.str s := by
  unfold transitionResult transition_to at h
  unfold transitionCalls transitionState transition_to
  cases hv : is_valid self s with
  | false => simp [hv] at h
  | true =>
    cases ha : is_allowed self s with
    | false => simp [hv, ha] at h
    | true =>
      simp only [hv, ha] at h ⊢
      cases h1 : (call_handler self "handle_any" s).2 with
      | error e1 => simp [h1] at h
      | ok u1 =>
        cases h2 : (call_handler self ("handle_" ++ s) s).2 with
        | error e2 => simp [h1, h2] at h
        | ok u2 =>
          simp only [h1, h2]
          constructor
          · unfold call_handler at h1 h2 ⊢
            cases ha1 : self.cls.handlers "handle_any" with
            | none =>
              cases ha2 : self.cls.handlers ("handle_" ++ s) with
              | none => simp [ha1, ha2]
              | some a =>
                cases a with
                | notCallable => rw [ha2] at h2; simp at h2
                | callable f => simp [ha1, ha2]
            | some a =>
              cases a with
              | notCallable => rw [ha1] at h1; simp at h1
              | callable f =>
                cases ha2 : self.cls.handlers ("handle_" ++ s) with
                | none => simp [ha1, ha2]
                | some a2 =>
                  cases a2 with
                  | notCallable => rw [ha2] at h2; simp at h2
                  | callable g => simp [ha1, ha2]
          · simp

/-- C2: on a successful transition the invocation trace is exactly the
wildcard-hook call (when a callable `handle_any` is present) followed by
the state-specific call (when a callable `handle_<target>` is present),
each performed once, each passed the target name, and each observing the
pre-transition value of `_current_state`; the state field is updated to the
target only after both. -/
theorem fsm_C2 (self : FSMInstance) (s : String)
    (h : transitionResult self s = Except.ok ()) :
    transitionCalls self s =
      (match self.cls.handlers "handle_any" with
       | Option.some (Attr.callable _) =>
         [{ handlerName := "handle_any", arg := s,
            stateAtCall := self.curState }]
       | _ => []) ++
      (match self.cls.handlers ("handle_" ++ s) with
       | Option.some (Attr.callable _) =>
         [{ handlerName := "handle_" ++ s, arg := s,
            stateAtCall := self.curState }]
       | _ => []) ∧
    transitionState self s = PyVal.str s :=
  transitionCalls_of_ok self s h

/-- C2 witness: on `ComplexFlow` from `waiting`, `transition_to("in_progress")`
fires `handle_any` then `handle_in_progress`, both seeing state `waiting`,
before the state becomes `in_progress`. -/
theorem fsm_C2_witness :
    transitionResult complexWaitingInst "in_progress" = Except.ok () ∧
    transitionCalls complexWaitingInst "in_progress" =
      [{ handlerName := "handle_any", arg := "in_progress",
         stateAtCall := PyVal.str "waiting" },
       { handlerName := "handle_in_progress", arg := "in_progress",
         stateAtCall := PyVal.str "waiting" }] ∧
    transitionState complexWaitingInst "in_progress" =
      PyVal.str "in_progress" := by
  have h : transitionResult complexWaitingInst "in_progress" =
      Except.ok () := rfl
  have h2 := fsm_C2 complexWaitingInst "in_progress" h
  refine ⟨h, ?_, h2.2⟩
  rw [h2.1]
  rfl

/-- C3 (behaviour of the code at the claimed input): on `ComplexFlow`
(whose associated object is `"job"`), a successful `transition_to("waiting")`
invokes the resolved hook with the single positional argument `"waiting"` —
the call record carries exactly the data the engine passes
(`_call_handler` executes `handle_specific(state_name)`), and the associated
object held in `self.obj` is not among the handler's arguments. -/
theorem fsm_C3_code :
    complexInst.obj = PyVal.str "job" ∧
    transitionResult complexInst "waiting" = Except.ok () ∧
    transitionCalls complexInst "waiting" =
      [{ handlerName := "handle_any", arg := "waiting",
         stateAtCall := PyVal.str "created" }] :=
  ⟨rfl, rfl, rfl⟩

/-- C4 (behaviour of the code at the claimed input): a `from_json` document
without a `default_state` key yields a class whose `default_state` is the
empty dict `{}` — not the `UNKNOWN_STATE` sentinel — so constructing an
instance does *not* raise `InvalidDefaultState`: construction succeeds and
the instance's current state is the empty dict. -/
theorem fsm_C4_code :
    c4Cls.default_state = PyVal.emptyDict ∧
    FSMInit c4Cls PyVal.pyNone Option.none = Except.ok c4Inst ∧
    c4Inst.curState = PyVal.emptyDict :=
  ⟨rfl, rfl, rfl⟩

/-- C5: for every successfully constructed instance and every name that is
not a key of the transition table, `transition_to` fails with
`InvalidState`, performs no hook invocation, and returns the instance
unchanged — whatever the current state is. -/
theorem fsm_C5 (cls : FSMClass) (obj : PyVal) (is0 : Option String)
    (self : FSMInstance) (hinit : FSMInit cls obj is0 = Except.ok self)
    (s : String) (hs : s ∉ dictKeys cls.allowed_transitions) :
    transition_to self s =
      (self, [], Except.error (PyErr.invalidState
        ("'" ++ s ++ "' is not a recognized state."))) := by
  obtain ⟨hcls, hnames⟩ := FSMInit_ok_inv cls obj is0 self hinit
  have hv : is_valid self s = false := by
    unfold is_valid
    rw [hnames]
    simpa using hs
  unfold transition_to
  simp [hv]

/-- C5 witness: on `BasicFlow`, `transition_to("nopenopenope")` raises
`InvalidState`, calls no hook and keeps the instance intact. -/
theorem fsm_C5_witness :
    FSMInit basicCls PyVal.pyNone Option.none = Except.ok basicInst ∧
    "nopenopenope" ∉ dictKeys basicCls.allowed_transitions ∧
    transition_to basicInst "nopenopenope" =
      (basicInst, [], Except.error (PyErr.invalidState
        "'nopenopenope' is not a recognized state.")) :=
  ⟨rfl, by decide,
   fsm_C5 basicCls PyVal.pyNone Option.none basicInst rfl
     "nopenopenope" (by decide)⟩

/-- C6: for every successfully constructed instance and every name that is a
table key but not reachable from the current state, `transition_to` fails
with `TransitionNotAllowed`, performs no hook invocation, and returns the
instance unchanged. -/
theorem fsm_C6 (cls : FSMClass) (obj : PyVal) (is0 : Option String)
    (self : FSMInstance) (hinit : FSMInit cls obj is0 = Except.ok self)
    (s : String) (hs : s ∈ dictKeys cls.allowed_transitions)
    (hna : is_allowed self s = false) :
    transition_to self s =
      (self, [], Except.error (PyErr.transitionNotAllowed
        ("cannot transition to '" ++ s ++ "'"))) := by
  obtain ⟨hcls, hnames⟩ := FSMInit_ok_inv cls obj is0 self hinit
  have hv : is_valid self s = true := by
    unfold is_valid
    rw [hnames]
    simpa using hs
  unfold transition_to
  simp [hv, hna]

/-- C6 witness: on `BasicFlow` in state `created`, `transition_to("done")`
raises `TransitionNotAllowed`, calls no hook and keeps the instance intact. -/
theorem fsm_C6_witness :
    FSMInit basicCls PyVal.pyNone Option.none = Except.ok basicInst ∧
    "done" ∈ dictKeys basicCls.allowed_transitions ∧
    is_allowed basicInst "done" = false ∧
    transition_to basicInst "done" =
      (basicInst, [], Except.error (PyErr.transitionNotAllowed
        "cannot transition to 'done'")) :=
  ⟨rfl, by decide, rfl,
   fsm_C6 basicCls PyVal.pyNone Option.none basicInst rfl
     "done" (by decide) rfl⟩

/-- C7: `is_allowed(s)` is true exactly when the current state is a string
`c` whose table entry is a real outgoing list containing `s`; when the
current state's entry is the terminal marker (`None` value) or the current
state is absent from the table, `is_allowed` is false for every name. -/
theorem fsm_C7 (self : FSMInstance) (s : String) :
    (is_allowed self s = true ↔
      ∃ c lst, current_state self = PyVal.str c ∧
        dictGet self.cls.allowed_transitions c = Option.some lst ∧
        s ∈ lst) ∧
    (∀ c, current_state self = PyVal.str c →
      dictLookup self.cls.allowed_transitions c = Option.some Option.none →
      is_allowed self s = false) ∧
    (∀ c, current_state self = PyVal.str c →
      dictLookup self.cls.allowed_transitions c = Option.none →
      is_allowed self s = false) := by
  refine ⟨?_, ?_, ?_⟩
  · unfold is_allowed current_state
    cases hc : self.curState with
    | str c =>
      cases hg : dictGet self.cls.allowed_transitions c with
      | none => simp [hg]
      | some lst => simp [hg]
    | unknownState => simp
    | emptyDict => simp
    | pyNone => simp
  · intro c hcur hlk
    unfold is_allowed current_state
    rw [show self.curState = PyVal.str c from hcur]
    simp [dictGet, hlk]
  · intro c hcur hlk
    unfold is_allowed current_state
    rw [show self.curState = PyVal.str c from hcur]
    simp [dictGet, hlk]

/-- C7 witness: on `BasicFlow`, from `created` the target `waiting` is
allowed; from the terminal state `done` it is not. -/
theorem fsm_C7_witness :
    is_allowed basicInst "waiting" = true ∧
    is_allowed doneInst "waiting" = false :=
  ⟨(fsm_C7 basicInst "waiting").1.mpr
     ⟨"created", ["waiting"], rfl, rfl, by decide⟩,
   (fsm_C7 doneInst "waiting").2.1 "done" rfl rfl⟩

/-- C8: for every successfully constructed instance, `is_valid(s)` holds
exactly when `s` is a key of the transition table, and `all_states()` is a
sorted (lexicographic `≤` on strings) permutation of the table's key list. -/
theorem fsm_C8 (cls : FSMClass) (obj : PyVal) (is0 : Option String)
    (self : FSMInstance) (hinit : FSMInit cls obj is0 = Except.ok self)
    (s : String) :
    (is_valid self s = true ↔ s ∈ dictKeys cls.allowed_transitions) ∧
    List.Sorted (fun a b => a ≤ b) (all_states self) ∧
    (all_states self).Perm (dictKeys cls.allowed_transitions) := by
  obtain ⟨hcls, hnames⟩ := FSMInit_ok_inv cls obj is0 self hinit
  refine ⟨?_, ?_, ?_⟩
  · unfold is_valid
    rw [hnames]
    simp
  · unfold all_states
    exact List.sorted_insertionSort _ _
  · unfold all_states
    rw [hnames]
    exact List.perm_insertionSort _ _

/-- C8 witness: on `BasicFlow`, `waiting` is valid, and `all_states()` is
the sorted permutation of the four declared state names. -/
theorem fsm_C8_witness :
    (is_valid basicInst "waiting" = true ↔
      "waiting" ∈ dictKeys basicCls.allowed_transitions) ∧
    List.Sorted (fun a b => a ≤ b) (all_states basicInst) ∧
    (all_states basicInst).Perm (dictKeys basicCls.allowed_transitions) :=
  fsm_C8 basicCls PyVal.pyNone Option.none basicInst rfl "waiting"

/-- C9: `setup` raises `NoStatesDefined` exactly when the transition table
is empty; otherwise it raises `InvalidDefaultState` exactly when the
default state is the `UNKNOWN_STATE` sentinel; with a non-empty table and a
non-sentinel default (key of the table or not) it succeeds. -/
theorem fsm_C9 (self : FSMInstance) :
    ((∃ m, setup self = Except.error (PyErr.noStatesDefined m)) ↔
      self.cls.allowed_transitions = []) ∧
    ((∃ m, setup self = Except.error (PyErr.invalidDefaultState m)) ↔
      (self.cls.allowed_transitions ≠ [] ∧
        self.cls.default_state = PyVal.unknownState)) ∧
    ((self.cls.allowed_transitions ≠ [] ∧
      self.cls.default_state ≠ PyVal.unknownState) →
      setup self = Except.ok { self with
        stateNames := dictKeys self.cls.allowed_transitions }) := by
  unfold setup
  by_cases h1 : self.cls.allowed_transitions.length = 0
  · have he : self.cls.allowed_transitions = [] :=
      List.length_eq_zero.mp h1
    simp [h1, he]
  · have hne : self.cls.allowed_transitions ≠ [] := by
      intro hcon
      exact h1 (by simp [hcon])
    by_cases h2 : self.cls.default_state = PyVal.unknownState
    · simp [h1, h2, hne]
    · simp [h1, h2, hne]

/-- C9 witness: a non-empty table with default state `zzz` — which is not a
key of the table — passes `setup` without error. -/
theorem fsm_C9_witness :
    noKeyCls.allowed_transitions ≠ [] ∧
    noKeyCls.default_state ≠ PyVal.unknownState ∧
    "zzz" ∉ dictKeys noKeyCls.allowed_transitions ∧
    setup rawNoKeyInst = Except.ok { rawNoKeyInst with
      stateNames := dictKeys noKeyCls.allowed_transitions } :=
  ⟨by decide, by decide, by decide,
   (fsm_C9 rawNoKeyInst).2.2 ⟨by decide, by decide⟩⟩

/-- C10: when the table has a state literally named `any` and a callable
`handle_any` hook exists, a successful `transition_to("any")` invokes
`handle_any` twice — once as the wildcard hook and once as the
state-specific hook, whose derived name `handle_` + `any` collides with the
wildcard name. -/
theorem fsm_C10 (self : FSMInstance) (f : String → Except PyErr Unit)
    (hh : self.cls.handlers "handle_any" = Option.some (Attr.callable f))
    (hok : transitionResult self "any" = Except.ok ()) :
    transitionCalls self "any" =
      [{ handlerName := "handle_any", arg := "any",
         stateAtCall := self.curState },
       { handlerName := "handle_any", arg := "any",
         stateAtCall := self.curState }] := by
  have h2 := transitionCalls_of_ok self "any" hok
  rw [h2.1]
  rw [show ("handle_" ++ "any" : String) = "handle_any" from rfl, hh]
  rfl

/-- C10 witness: on the machine with a state named `any`, `transition_to("any")`
succeeds and the trace is two invocations of `handle_any`. -/
theorem fsm_C10_witness :
    anyInst.cls.handlers "handle_any" =
      Option.some (Attr.callable okHook) ∧
    transitionResult anyInst "any" = Except.ok () ∧
    transitionCalls anyInst "any" =
      [{ handlerName := "handle_any", arg := "any",
         stateAtCall := PyVal.str "any" },
       { handlerName := "handle_any", arg := "any",
         stateAtCall := PyVal.str "any" }] :=
  ⟨rfl, rfl, fsm_C10 anyInst okHook rfl rfl⟩
